import Mathlib

/-!
Verification model of the `rs-matter-example` measurement clusters
(`src/temperature_measurement.rs`, `src/humidity_measurement.rs`, `src/main.rs`).

The Rust code computes with IEEE-754 binary32 (`f32`) values.  We embed `f32`
exactly: a value is NaN, a signed infinity, or a finite value carried as the
rational number it denotes (the sign of zero is not tracked; no claim depends
on it).  Every arithmetic operation rounds its exact rational result to the
nearest representable binary32 value, ties to even, as the hardware does.
-/

/-- An IEEE-754 binary32 (`f32`) value: NaN, infinity (`true` = negative),
or a finite value given by the rational it denotes. -/
inductive F32 where
  | nan : F32
  | inf : Bool → F32
  | fin : ℚ → F32
deriving DecidableEq, Repr

namespace F32

/-- `⌊log₂ q⌋` for a positive rational `q = a / b`, computed on the numerator
and denominator with `Nat.log2`. -/
def floorLog2 (q : ℚ) : ℤ :=
  let a := q.num.natAbs
  let b := q.den
  if b ≤ a then (Nat.log2 (a / b) : ℤ)
  else
    let m0 := Nat.log2 (b / a)
    if b ≤ 2 ^ m0 * a then -(m0 : ℤ) else -((m0 : ℤ) + 1)

/-- Round a rational to the nearest integer, ties to even (IEEE default). -/
def rnEven (y : ℚ) : ℤ :=
  let n := ⌊y⌋
  if y - n < 1/2 then n
  else if (1:ℚ)/2 < y - n then n + 1
  else if n % 2 = 0 then n else n + 1

/-- Round an exact rational result to the nearest binary32 value
(round-to-nearest, ties to even; subnormals at scale `2^(-149)`;
overflow to infinity at `2^128`). -/
def roundF32 (q : ℚ) : F32 :=
  if q = 0 then .fin 0
  else
    let u : ℤ := max (floorLog2 |q| - 23) (-149)
    let n : ℤ := rnEven (|q| / (2:ℚ) ^ u)
    let r : ℚ := (n : ℚ) * (2:ℚ) ^ u
    if (2:ℚ) ^ (128:ℤ) ≤ r then .inf (q < 0)
    else .fin (if q < 0 then -r else r)

/-- `f32` multiplication. -/
def mul : F32 → F32 → F32
  | nan, _ => nan
  | _, nan => nan
  | inf s, inf t => inf (xor s t)
  | inf s, fin q => if q = 0 then nan else inf (xor s (decide (q < 0)))
  | fin q, inf s => if q = 0 then nan else inf (xor s (decide (q < 0)))
  | fin a, fin b => roundF32 (a * b)

/-- `f32` division. -/
def div : F32 → F32 → F32
  | nan, _ => nan
  | _, nan => nan
  | inf _, inf _ => nan
  | inf s, fin q => inf (xor s (decide (q < 0)))
  | fin _, inf _ => fin 0
  | fin a, fin b =>
      if b = 0 then (if a = 0 then nan else inf (decide (a < 0)))
      else roundF32 (a / b)

/-- `f32` subtraction. -/
def sub : F32 → F32 → F32
  | nan, _ => nan
  | _, nan => nan
  | inf s, inf t => if s = t then nan else inf s
  | inf s, fin _ => inf s
  | fin _, inf t => inf (!t)
  | fin a, fin b => roundF32 (a - b)

/-- Round a rational to the nearest integer, ties away from zero
(the semantics of Rust's `f32::round`). -/
def roundAway (q : ℚ) : ℤ :=
  if 0 ≤ q then ⌊q + 1/2⌋ else -⌊-q + 1/2⌋

/-- Rust `f32::round`: nearest integer, ties away from zero.  A finite `f32`
rounded to an integer is exactly representable whenever the input is
(integers below `2^24` are exact; larger finite values are already integral),
so no re-rounding is needed. -/
def round : F32 → F32
  | nan => nan
  | inf s => inf s
  | fin q => fin (roundAway q)

/-- Rust `f32::clamp` with finite constant bounds `lo ≤ hi`:
NaN propagates, otherwise the value is forced into `[lo, hi]`. -/
def clamp : F32 → ℚ → ℚ → F32
  | nan, _, _ => nan
  | inf s, lo, hi => if s then fin lo else fin hi
  | fin q, lo, hi => if q < lo then fin lo else if hi < q then fin hi else fin q

/-- Truncation toward zero of a rational, as an integer. -/
def truncQ (q : ℚ) : ℤ :=
  if 0 ≤ q then ⌊q⌋ else -⌊-q⌋

/-- Rust's `as i16` cast from `f32`: truncate toward zero and saturate to
`[-32768, 32767]`; NaN casts to `0`. -/
def toI16 : F32 → ℤ
  | nan => 0
  | inf s => if s then -32768 else 32767
  | fin q => max (-32768) (min 32767 (truncQ q))

/-- Rust's `as u16` cast from `f32`: truncate toward zero and saturate to
`[0, 65535]`; NaN casts to `0`. -/
def toU16 : F32 → ℕ
  | nan => 0
  | inf s => if s then 0 else 65535
  | fin q => (min 65535 (truncQ q)).toNat

/-- Rust's IEEE `==` on `f32` (the `PartialEq` used by `Option<f32>::ne`):
NaN is unequal to everything, including itself. -/
def ieeeEq : F32 → F32 → Bool
  | nan, _ => false
  | _, nan => false
  | inf s, inf t => s = t
  | inf _, fin _ => false
  | fin _, inf _ => false
  | fin a, fin b => a = b

end F32

/-- Rust's `Option<f32>` inequality `!=` (`PartialEq` derived from IEEE `==`
on the payload): `None == None`, `Some x == Some y` iff `x` IEEE-equals `y`. -/
def optF32Ne (a b : Option F32) : Bool :=
  match a, b with
  | none, none => false
  | some x, some y => !(x.ieeeEq y)
  | _, _ => true

/-!
## Dataver and cluster state

`Dataver` lives in the external `rs_matter` crate, not in this repository.
-/

/-- Modelled from the spec: the `rs_matter` crate's `Dataver` (not part of this
repository's sources) — "a monotonically increasing integer plus a dirty flag";
`changed()` increments the counter and arms the dirty flag; reading the version
never advances it; `consume_change` drains the dirty flag exactly once. -/
structure Dataver where
  ver : ℕ
  dirty : Bool
deriving DecidableEq, Repr

namespace Dataver

/-- Modelled from the spec: `Dataver::get` returns the current version. -/
def get (d : Dataver) : ℕ := d.ver

/-- Modelled from the spec: `Dataver::changed` increments the version counter
and arms the dirty flag. -/
def changed (d : Dataver) : Dataver := { ver := d.ver + 1, dirty := true }

/-- Modelled from the spec: `Dataver::consume_change` returns `some` and clears
the dirty flag when it is armed, `none` otherwise. -/
def consume_change (d : Dataver) : Option Unit × Dataver :=
  if d.dirty then (some (), { d with dirty := false }) else (none, d)

end Dataver

/-- Modelled from the spec: the protocol engine's `AttrDetails` carries the
requested numeric attribute id and whether it is a system attribute. -/
structure AttrDetails where
  attr_id : ℕ
  system : Bool
deriving DecidableEq, Repr

/-- Modelled from the spec: minimal error type — `attr_id.try_into()?` in the
read handlers surfaces an "unsupported attribute" error on unknown ids, and
encoder-level failures propagate verbatim. -/
inductive MatterError where
  | attributeNotFound : MatterError
  | encoderError : MatterError
deriving DecidableEq, Repr

/-- The three user attributes of either measurement cluster
(`Attributes` in both `temperature_measurement.rs` and
`humidity_measurement.rs`, `#[repr(u16)]` with ids 0, 1, 2). -/
inductive Attributes where
  | MeasuredValue : Attributes
  | MinMeasuredValue : Attributes
  | MaxMeasuredValue : Attributes
deriving DecidableEq, Repr

/-- `Attributes::from_repr` (via `attribute_enum!` / `TryFrom<u16>`):
id 0 is MeasuredValue, 1 MinMeasuredValue, 2 MaxMeasuredValue,
anything else fails. -/
def attributesFromRepr (id : ℕ) : Option Attributes :=
  if id = 0 then some .MeasuredValue
  else if id = 1 then some .MinMeasuredValue
  else if id = 2 then some .MaxMeasuredValue
  else none

/-- `FEATURE_MAP.id` in `rs_matter` (global system attribute). -/
def FEATURE_MAP_ID : ℕ := 0xFFFC

/-- `ATTRIBUTE_LIST.id` in `rs_matter` (global system attribute). -/
def ATTRIBUTE_LIST_ID : ℕ := 0xFFFB

/-- The attribute-id list of the `CLUSTER` descriptor shared by both
measurement cluster types:
`&[FEATURE_MAP, ATTRIBUTE_LIST, MEASURED_VAUE, MIN_MEASURED_VAUE, MAX_MEASURED_VAUE]`. -/
def CLUSTER_attribute_ids : List ℕ := [FEATURE_MAP_ID, ATTRIBUTE_LIST_ID, 0, 1, 2]

/-- The non-system (user) attribute ids declared by the descriptor. -/
def declaredUserAttributeIds : List ℕ := [0, 1, 2]

/-- What a read writes into the encoder: either the delegated system-attribute
answer (`CLUSTER.read(attr_id, writer)`), or a `codec.encode` of an
`Option<i16>` (temperature) where `none` is the protocol's null
representation. -/
inductive TempWrite where
  | systemAttr : ℕ → TempWrite
  | measuredI16 : Option ℤ → TempWrite
deriving DecidableEq, Repr

/-- What a humidity read writes into the encoder: the delegated
system-attribute answer or a `codec.encode` of an `Option<u16>`,
`none` being the null representation. -/
inductive HumWrite where
  | systemAttr : ℕ → HumWrite
  | measuredU16 : Option ℕ → HumWrite
deriving DecidableEq, Repr

/-- `TemperatureMeasurementCluster`: a `Dataver` and
`temperature: Cell<Option<f32>>` (created absent). -/
structure TemperatureMeasurementCluster where
  data_ver : Dataver
  temperature : Option F32
deriving DecidableEq, Repr

namespace TemperatureMeasurementCluster

/-- `TemperatureMeasurementCluster::new`. -/
def new (d : Dataver) : TemperatureMeasurementCluster :=
  { data_ver := d, temperature := none }

/-- `TemperatureMeasurementCluster::get`. -/
def get (c : TemperatureMeasurementCluster) : Option F32 := c.temperature

/-- `TemperatureMeasurementCluster::set`:
`if self.temperature.get() != temperature { self.temperature.set(temperature); self.data_ver.changed(); }` -/
def set (c : TemperatureMeasurementCluster) (v : Option F32) :
    TemperatureMeasurementCluster :=
  if optF32Ne c.temperature v then
    { temperature := v, data_ver := c.data_ver.changed }
  else c

/-- `ChangeNotifier::consume_change` for the temperature cluster:
`self.data_ver.consume_change(())`. -/
def consume_change (c : TemperatureMeasurementCluster) :
    Option Unit × TemperatureMeasurementCluster :=
  let (r, d) := c.data_ver.consume_change
  (r, { c with data_ver := d })

/-- The wire value computed for MeasuredValue:
`(v * 100.0).round() as i16`. -/
def measuredWire (v : F32) : ℤ :=
  ((v.mul (.fin 100)).round).toI16

/-- `TemperatureMeasurementCluster::read`.  The encoder is abstracted per the
spec's interface: `wd` is the outcome of `encoder.with_dataver(..)?` (an error
propagates; `ok false` means the writer was withheld and the handler returns
success having written nothing).  State is threaded explicitly: the source
performs only `Cell::get` reads on this path, so every branch returns the
cluster state it received. -/
def read (c : TemperatureMeasurementCluster) (attr : AttrDetails)
    (wd : Except MatterError Bool) :
    Except MatterError (Option TempWrite) × TemperatureMeasurementCluster :=
  match wd with
  | .error e => (.error e, c)
  | .ok false => (.ok none, c)
  | .ok true =>
    if attr.system then (.ok (some (.systemAttr attr.attr_id)), c)
    else
      match attributesFromRepr attr.attr_id with
      | none => (.error .attributeNotFound, c)
      | some .MeasuredValue =>
          (.ok (some (.measuredI16 (c.temperature.map measuredWire))), c)
      | some .MinMeasuredValue => (.ok (some (.measuredI16 none)), c)
      | some .MaxMeasuredValue => (.ok (some (.measuredI16 none)), c)

/-- Apply a sequence of `set` calls from the left. -/
def applySets (c : TemperatureMeasurementCluster) :
    List (Option F32) → TemperatureMeasurementCluster
  | [] => c
  | v :: vs => (c.set v).applySets vs

/-- Count the `set` calls whose argument IEEE-differs from the value stored
immediately before them. -/
def countChanges (c : TemperatureMeasurementCluster) :
    List (Option F32) → ℕ
  | [] => 0
  | v :: vs =>
      (if optF32Ne c.temperature v then 1 else 0) + (c.set v).countChanges vs

end TemperatureMeasurementCluster

/-- `HumidityMeasurementCluster`: a `Dataver` and
`humidity_prh: Cell<Option<f32>>` (created absent). -/
structure HumidityMeasurementCluster where
  data_ver : Dataver
  humidity_prh : Option F32
deriving DecidableEq, Repr

namespace HumidityMeasurementCluster

/-- `HumidityMeasurementCluster::new`. -/
def new (d : Dataver) : HumidityMeasurementCluster :=
  { data_ver := d, humidity_prh := none }

/-- `HumidityMeasurementCluster::get`. -/
def get (c : HumidityMeasurementCluster) : Option F32 := c.humidity_prh

/-- `HumidityMeasurementCluster::set`:
`if self.humidity_prh.get() != temperature { self.humidity_prh.set(temperature); self.data_ver.changed(); }` -/
def set (c : HumidityMeasurementCluster) (v : Option F32) :
    HumidityMeasurementCluster :=
  if optF32Ne c.humidity_prh v then
    { humidity_prh := v, data_ver := c.data_ver.changed }
  else c

/-- `ChangeNotifier::consume_change` for the humidity cluster. -/
def consume_change (c : HumidityMeasurementCluster) :
    Option Unit × HumidityMeasurementCluster :=
  let (r, d) := c.data_ver.consume_change
  (r, { c with data_ver := d })

/-- The wire value computed for MeasuredValue:
`(v * 100.0).clamp(0.0, 10000.0) as u16`. -/
def measuredWire (v : F32) : ℕ :=
  ((v.mul (.fin 100)).clamp 0 10000).toU16

/-- `HumidityMeasurementCluster::read`, embedded like the temperature one. -/
def read (c : HumidityMeasurementCluster) (attr : AttrDetails)
    (wd : Except MatterError Bool) :
    Except MatterError (Option HumWrite) × HumidityMeasurementCluster :=
  match wd with
  | .error e => (.error e, c)
  | .ok false => (.ok none, c)
  | .ok true =>
    if attr.system then (.ok (some (.systemAttr attr.attr_id)), c)
    else
      match attributesFromRepr attr.attr_id with
      | none => (.error .attributeNotFound, c)
      | some .MeasuredValue =>
          (.ok (some (.measuredU16 (c.humidity_prh.map measuredWire))), c)
      | some .MinMeasuredValue => (.ok (some (.measuredU16 none)), c)
      | some .MaxMeasuredValue => (.ok (some (.measuredU16 none)), c)

/-- Apply a sequence of `set` calls from the left. -/
def applySets (c : HumidityMeasurementCluster) :
    List (Option F32) → HumidityMeasurementCluster
  | [] => c
  | v :: vs => (c.set v).applySets vs

/-- Count the `set` calls whose argument IEEE-differs from the value stored
immediately before them. -/
def countChanges (c : HumidityMeasurementCluster) :
    List (Option F32) → ℕ
  | [] => 0
  | v :: vs =>
      (if optF32Ne c.humidity_prh v then 1 else 0) + (c.set v).countChanges vs

end HumidityMeasurementCluster

/-!
## The device polling loop's decode formulas (`src/main.rs`, lines 215–221)
-/

/-- `((buffer[0] as u16) << 8 | buffer[1] as u16) as f32 * 175.0 / 65535.0 - 45.0`,
with every operation in `f32`. -/
def decodeTemperature (b0 b1 : ℕ) : F32 :=
  (((F32.fin ((b0 * 256 + b1 : ℕ) : ℚ)).mul (.fin 175)).div (.fin 65535)).sub
    (.fin 45)

/-- `(((buffer[3] as u16) << 8 | buffer[4] as u16) as f32 * 125.0 / 65535.0 - 6.0).clamp(0.0, 100.0)`,
with every operation in `f32`. -/
def decodeRelativeHumidity (b3 b4 : ℕ) : F32 :=
  ((((F32.fin ((b3 * 256 + b4 : ℕ) : ℚ)).mul (.fin 125)).div (.fin 65535)).sub
    (.fin 6)).clamp 0 100

/-!
## The spec's encoding formulas, stated from the spec's words
(for comparison with the code's computations)
-/

/-- The spec's humidity wire formula, from its words:
"unsigned 16-bit integer = `clamp(round(percent_rh * 100), 0, 10000)`". -/
def specHumidityMeasuredValue (q : ℚ) : ℤ :=
  max 0 (min 10000 (F32.roundAway (q * 100)))

/-- The spec's temperature wire formula, from its words:
"signed 16-bit integer = `round(celsius * 100)`; unconstrained range". -/
def specTemperatureMeasuredValue (q : ℚ) : ℤ :=
  F32.roundAway (q * 100)

/-!
## Evaluation lemmas for the binary32 model

`Rat` literal arithmetic does not reduce definitionally, so concrete
computations are settled through these order-theoretic characterisations,
with `norm_num` discharging the side conditions.
-/

namespace F32


theorem floorLog2_spec (q : ℚ) (e : ℤ) (h1 : (2:ℚ) ^ e ≤ q)
    (h2 : q < (2:ℚ) ^ (e + 1)) : floorLog2 q = e := by
  have hq0 : 0 < q := lt_of_lt_of_le (zpow_pos (by norm_num) e) h1
  have hbpos : (0:ℚ) < (q.den : ℚ) := by exact_mod_cast q.pos
  have hnum : (q.num.natAbs : ℚ) = (q.num : ℚ) := by
    rw [Int.cast_natAbs]
    exact_mod_cast congrArg (fun z : ℤ => (z : ℚ))
      (abs_of_nonneg (Rat.num_nonneg.mpr hq0.le))
  have hq : q = (q.num.natAbs : ℚ) / (q.den : ℚ) := by
    rw [hnum, Rat.num_div_den]
  unfold floorLog2
  by_cases hab : q.den ≤ q.num.natAbs
  · -- q ≥ 1, so e = Nat.log2 (num / den)
    have hq1 : 1 ≤ q := by
      rw [hq, le_div_iff₀ hbpos, one_mul]
      exact_mod_cast hab
    have he0 : 0 ≤ e := by
      by_contra hneg
      have : (2:ℚ) ^ (e + 1) ≤ 1 :=
        zpow_le_one_of_nonpos₀ (by norm_num) (by omega)
      exact absurd (lt_of_le_of_lt hq1 h2) (not_lt.mpr this)
    obtain ⟨m, rfl⟩ : ∃ m : ℕ, e = (m : ℤ) :=
      ⟨e.toNat, (Int.toNat_of_nonneg he0).symm⟩
    rw [if_pos hab]
    norm_cast
    rw [Nat.log2_eq_log_two]
    apply Nat.log_eq_of_pow_le_of_lt_pow
    · rw [Nat.le_div_iff_mul_le q.pos]
      have h1' : (2:ℚ) ^ (m:ℕ) ≤ (q.num.natAbs : ℚ) / (q.den : ℚ) := by
        rw [← hq]
        rw [zpow_natCast] at h1
        exact h1
      have h1'' : (2:ℚ) ^ (m:ℕ) * (q.den : ℚ) ≤ (q.num.natAbs : ℚ) :=
        (le_div_iff₀ hbpos).mp h1'
      exact_mod_cast h1''
    · rw [Nat.div_lt_iff_lt_mul q.pos]
      have h2' : (q.num.natAbs : ℚ) / (q.den : ℚ) < (2:ℚ) ^ (m + 1 : ℕ) := by
        rw [← hq]
        rw [show ((m:ℤ) + 1) = ((m + 1 : ℕ) : ℤ) from by push_cast; ring,
          zpow_natCast] at h2
        exact h2
      have h2'' : (q.num.natAbs : ℚ) < (2:ℚ) ^ (m + 1 : ℕ) * (q.den : ℚ) :=
        (div_lt_iff₀ hbpos).mp h2'
      exact_mod_cast h2''
  · -- q < 1, so e = -m with m ≥ 1
    have hapos : 0 < q.num.natAbs :=
      Int.natAbs_pos.mpr (ne_of_gt (Rat.num_pos.mpr hq0))
    have hanz : (0:ℚ) < (q.num.natAbs : ℚ) := by exact_mod_cast hapos
    have hq1 : q < 1 := by
      rw [hq, div_lt_one hbpos]
      exact_mod_cast lt_of_not_le hab
    have helt : e < 0 := by
      by_contra hpos
      have : (1:ℚ) ≤ (2:ℚ) ^ e := one_le_zpow₀ (by norm_num) (by omega)
      exact absurd (lt_of_le_of_lt h1 hq1) (not_lt.mpr this)
    obtain ⟨m, hm1, rfl⟩ : ∃ m : ℕ, 1 ≤ m ∧ e = -(m : ℤ) :=
      ⟨(-e).toNat, by omega, by omega⟩
    rw [if_neg hab]
    have h2pos : (0:ℚ) < (2:ℚ) ^ (m:ℕ) := by positivity
    have h2pos' : (0:ℚ) < (2:ℚ) ^ (m - 1 : ℕ) := by positivity
    -- transport the rational bounds to ℕ
    have hub : q.den ≤ 2 ^ m * q.num.natAbs := by
      have h1' : (1:ℚ) / (2:ℚ) ^ (m:ℕ) ≤ (q.num.natAbs : ℚ) / (q.den : ℚ) := by
        rw [one_div, ← zpow_natCast (2:ℚ) m, ← zpow_neg, ← hq]
        exact h1
      have := (div_le_div_iff₀ h2pos hbpos).mp h1'
      have h'' : (q.den : ℚ) ≤ (2:ℚ) ^ (m:ℕ) * (q.num.natAbs : ℚ) := by nlinarith
      exact_mod_cast h''
    have hlb : 2 ^ (m - 1) * q.num.natAbs < q.den := by
      have h2' : (q.num.natAbs : ℚ) / (q.den : ℚ) < (1:ℚ) / (2:ℚ) ^ (m - 1 : ℕ) := by
        rw [one_div, ← zpow_natCast (2:ℚ) (m - 1), ← zpow_neg, ← hq,
          show -((m - 1 : ℕ) : ℤ) = -(m:ℤ) + 1 from by omega]
        exact h2
      have := (div_lt_div_iff₀ hbpos h2pos').mp h2'
      have h'' : (2:ℚ) ^ (m - 1 : ℕ) * (q.num.natAbs : ℚ) < (q.den : ℚ) := by nlinarith
      exact_mod_cast h''
    -- bound m0 = Nat.log2 (den / num) between m - 1 and m
    have hm0ub : Nat.log2 (q.den / q.num.natAbs) ≤ m := by
      rw [Nat.log2_eq_log_two]
      calc Nat.log 2 (q.den / q.num.natAbs)
          ≤ Nat.log 2 (2 ^ m * q.num.natAbs / q.num.natAbs) :=
            Nat.log_mono_right (Nat.div_le_div_right hub)
        _ = Nat.log 2 (2 ^ m) := by rw [Nat.mul_div_cancel _ hapos]
        _ = m := Nat.log_pow (by norm_num) m
    have hm0lb : m - 1 ≤ Nat.log2 (q.den / q.num.natAbs) := by
      rw [Nat.log2_eq_log_two]
      calc m - 1 = Nat.log 2 (2 ^ (m - 1)) := (Nat.log_pow (by norm_num) _).symm
        _ ≤ Nat.log 2 (q.den / q.num.natAbs) := by
            apply Nat.log_mono_right
            rw [Nat.le_div_iff_mul_le hapos]
            omega
    by_cases hc : q.den ≤ 2 ^ Nat.log2 (q.den / q.num.natAbs) * q.num.natAbs
    · rw [if_pos hc]
      have hge : m ≤ Nat.log2 (q.den / q.num.natAbs) := by
        by_contra hlt
        have hle : Nat.log2 (q.den / q.num.natAbs) ≤ m - 1 := by omega
        have : (2:ℕ) ^ Nat.log2 (q.den / q.num.natAbs) * q.num.natAbs ≤
            2 ^ (m - 1) * q.num.natAbs :=
          Nat.mul_le_mul_right _ (Nat.pow_le_pow_right (by norm_num) hle)
        omega
      rw [le_antisymm hm0ub hge]
    · rw [if_neg hc]
      have hlt0 : 2 ^ Nat.log2 (q.den / q.num.natAbs) * q.num.natAbs < q.den := by
        omega
      have hlt : Nat.log2 (q.den / q.num.natAbs) < m := by
        by_contra hge
        have hle : m ≤ Nat.log2 (q.den / q.num.natAbs) := by omega
        have : (2:ℕ) ^ m * q.num.natAbs ≤
            2 ^ Nat.log2 (q.den / q.num.natAbs) * q.num.natAbs :=
          Nat.mul_le_mul_right _ (Nat.pow_le_pow_right (by norm_num) hle)
        omega
      rw [show Nat.log2 (q.den / q.num.natAbs) = m - 1 from by omega]
      omega

theorem rnEven_eq_lo (y : ℚ) (n : ℤ) (h1 : (n:ℚ) ≤ y) (h2 : y < (n:ℚ) + 1/2) :
    rnEven y = n := by
  have hf : ⌊y⌋ = n := by
    rw [Int.floor_eq_iff]
    exact ⟨h1, by linarith⟩
  unfold rnEven
  rw [hf, if_pos (by linarith)]

theorem rnEven_eq_hi (y : ℚ) (n : ℤ) (h1 : (n:ℚ) + 1/2 < y) (h2 : y < (n:ℚ) + 1) :
    rnEven y = n + 1 := by
  have hf : ⌊y⌋ = n := by
    rw [Int.floor_eq_iff]
    exact ⟨by linarith, by linarith⟩
  unfold rnEven
  rw [hf, if_neg (by linarith), if_pos (by linarith)]

theorem roundF32_eq_pos (q : ℚ) (e n : ℤ)
    (h0 : 0 < q) (h1 : (2:ℚ) ^ e ≤ q) (h2 : q < (2:ℚ) ^ (e + 1)) (he : -126 ≤ e)
    (hn : rnEven (q / (2:ℚ) ^ (e - 23)) = n)
    (hub : (n:ℚ) * (2:ℚ) ^ (e - 23) < (2:ℚ) ^ (128:ℤ)) :
    roundF32 q = .fin ((n:ℚ) * (2:ℚ) ^ (e - 23)) := by
  have hfl : floorLog2 q = e := floorLog2_spec q e h1 h2
  unfold roundF32
  rw [if_neg h0.ne']
  simp only [abs_of_pos h0, hfl, max_eq_left (by omega : (-149:ℤ) ≤ e - 23), hn]
  rw [if_neg (not_le.mpr hub), if_neg (not_lt.mpr h0.le)]

theorem roundF32_eq_neg (q : ℚ) (e n : ℤ)
    (h0 : q < 0) (h1 : (2:ℚ) ^ e ≤ -q) (h2 : -q < (2:ℚ) ^ (e + 1)) (he : -126 ≤ e)
    (hn : rnEven (-q / (2:ℚ) ^ (e - 23)) = n)
    (hub : (n:ℚ) * (2:ℚ) ^ (e - 23) < (2:ℚ) ^ (128:ℤ)) :
    roundF32 q = .fin (-((n:ℚ) * (2:ℚ) ^ (e - 23))) := by
  have hfl : floorLog2 (-q) = e := floorLog2_spec (-q) e h1 h2
  unfold roundF32
  rw [if_neg h0.ne]
  simp only [abs_of_neg h0, hfl, max_eq_left (by omega : (-149:ℤ) ≤ e - 23), hn]
  rw [if_neg (not_le.mpr hub), if_pos h0]

end F32

namespace F32

theorem mul_fin (a b : ℚ) : mul (.fin a) (.fin b) = roundF32 (a * b) := rfl

theorem sub_fin (a b : ℚ) : sub (.fin a) (.fin b) = roundF32 (a - b) := rfl

theorem div_fin (a b : ℚ) (hb : b ≠ 0) :
    div (.fin a) (.fin b) = roundF32 (a / b) := by
  simp only [div]
  rw [if_neg hb]

theorem round_fin (q : ℚ) : round (.fin q) = .fin ((roundAway q : ℤ) : ℚ) := rfl

theorem truncQ_intCast (n : ℤ) : truncQ ((n:ℤ) : ℚ) = n := by
  unfold truncQ
  by_cases h : (0:ℚ) ≤ (n : ℚ)
  · rw [if_pos h, Int.floor_intCast]
  · rw [if_neg h, ← Int.cast_neg, Int.floor_intCast]
    omega

theorem truncQ_eq_pos (q : ℚ) (n : ℤ) (h0 : 0 ≤ q) (h1 : (n:ℚ) ≤ q)
    (h2 : q < (n:ℚ) + 1) : truncQ q = n := by
  unfold truncQ
  rw [if_pos h0, Int.floor_eq_iff]
  exact ⟨h1, h2⟩

theorem roundAway_eq_pos (q : ℚ) (n : ℤ) (h0 : 0 ≤ q) (h1 : (n:ℚ) ≤ q + 1/2)
    (h2 : q + 1/2 < (n:ℚ) + 1) : roundAway q = n := by
  unfold roundAway
  rw [if_pos h0, Int.floor_eq_iff]
  exact ⟨h1, h2⟩

theorem roundAway_eq_neg (q : ℚ) (n : ℤ) (h0 : ¬ 0 ≤ q) (h1 : (n:ℚ) ≤ -q + 1/2)
    (h2 : -q + 1/2 < (n:ℚ) + 1) : roundAway q = -n := by
  unfold roundAway
  rw [if_neg h0]
  have : ⌊-q + 1/2⌋ = n := Int.floor_eq_iff.mpr ⟨h1, h2⟩
  rw [this]

theorem toI16_fin_range (n : ℤ) (h1 : -32768 ≤ n) (h2 : n ≤ 32767) :
    toI16 (.fin ((n:ℤ) : ℚ)) = n := by
  have h : toI16 (.fin ((n:ℤ) : ℚ)) = max (-32768) (min 32767 (truncQ ((n:ℤ) : ℚ))) := rfl
  rw [h, truncQ_intCast]
  omega

end F32

/-!
## Concrete binary32 computations for the claims' inputs
-/

theorem roundF32_temp_mul : F32.roundF32 ((26146:ℚ) * 175) = .fin 4575550 := by
  have hn : F32.rnEven ((26146:ℚ) * 175 / (2:ℚ) ^ ((22:ℤ) - 23)) = 9151100 := by
    apply F32.rnEven_eq_lo <;> norm_num
  have h := F32.roundF32_eq_pos ((26146:ℚ) * 175) 22 9151100 (by norm_num) (by norm_num)
    (by norm_num) (by norm_num) hn (by norm_num)
  rw [h]
  norm_num

theorem roundF32_temp_div : F32.roundF32 ((4575550:ℚ) / 65535) = .fin ((1143905:ℚ)/16384) := by
  have hn : F32.rnEven ((4575550:ℚ) / 65535 / (2:ℚ) ^ ((6:ℤ) - 23)) = 9151240 := by
    have h := F32.rnEven_eq_hi ((4575550:ℚ) / 65535 / (2:ℚ) ^ ((6:ℤ) - 23)) 9151239
      (by norm_num) (by norm_num)
    rw [h]
    norm_num
  have h := F32.roundF32_eq_pos ((4575550:ℚ) / 65535) 6 9151240 (by norm_num) (by norm_num)
    (by norm_num) (by norm_num) hn (by norm_num)
  rw [h]
  norm_num

theorem roundF32_temp_sub : F32.roundF32 ((1143905:ℚ)/16384 - 45) = .fin ((406625:ℚ)/16384) := by
  have hn : F32.rnEven (((1143905:ℚ)/16384 - 45) / (2:ℚ) ^ ((4:ℤ) - 23)) = 13012000 := by
    apply F32.rnEven_eq_lo <;> norm_num
  have h := F32.roundF32_eq_pos ((1143905:ℚ)/16384 - 45) 4 13012000 (by norm_num) (by norm_num)
    (by norm_num) (by norm_num) hn (by norm_num)
  rw [h]
  norm_num

theorem roundF32_temp_enc : F32.roundF32 ((406625:ℚ)/16384 * 100) = .fin ((10165625:ℚ)/4096) := by
  have hn : F32.rnEven (((406625:ℚ)/16384 * 100) / (2:ℚ) ^ ((11:ℤ) - 23)) = 10165625 := by
    apply F32.rnEven_eq_lo <;> norm_num
  have h := F32.roundF32_eq_pos ((406625:ℚ)/16384 * 100) 11 10165625 (by norm_num) (by norm_num)
    (by norm_num) (by norm_num) hn (by norm_num)
  rw [h]
  norm_num

theorem decodeTemperature_bytes :
    decodeTemperature 0x66 0x22 = .fin ((406625:ℚ)/16384) := by
  unfold decodeTemperature
  rw [show (((0x66 * 256 + 0x22 : ℕ) : ℚ)) = (26146:ℚ) from by norm_num]
  rw [F32.mul_fin, roundF32_temp_mul]
  rw [F32.div_fin _ _ (by norm_num), roundF32_temp_div]
  rw [F32.sub_fin, roundF32_temp_sub]

theorem tempWire_bytes :
    TemperatureMeasurementCluster.measuredWire (decodeTemperature 0x66 0x22) = 2482 := by
  rw [decodeTemperature_bytes]
  unfold TemperatureMeasurementCluster.measuredWire
  rw [F32.mul_fin, roundF32_temp_enc, F32.round_fin]
  rw [F32.roundAway_eq_pos ((10165625:ℚ)/4096) 2482 (by norm_num) (by norm_num) (by norm_num)]
  exact F32.toI16_fin_range 2482 (by norm_num) (by norm_num)

theorem toU16_fin_eval (q : ℚ) (n : ℤ) (h0 : 0 ≤ q) (h1 : (n:ℚ) ≤ q)
    (h2 : q < (n:ℚ) + 1) (h4 : n ≤ 65535) : F32.toU16 (.fin q) = n.toNat := by
  have h : F32.toU16 (.fin q) = (min 65535 (F32.truncQ q)).toNat := rfl
  rw [h, F32.truncQ_eq_pos q n h0 h1 h2, min_eq_right h4]

theorem roundF32_hum_mul : F32.roundF32 ((28460:ℚ) * 125) = .fin 3557500 := by
  have hn : F32.rnEven ((28460:ℚ) * 125 / (2:ℚ) ^ ((21:ℤ) - 23)) = 14230000 := by
    apply F32.rnEven_eq_lo <;> norm_num
  have h := F32.roundF32_eq_pos ((28460:ℚ) * 125) 21 14230000 (by norm_num) (by norm_num)
    (by norm_num) (by norm_num) hn (by norm_num)
  rw [h]
  norm_num

theorem roundF32_hum_div : F32.roundF32 ((3557500:ℚ) / 65535) = .fin ((14230217:ℚ)/262144) := by
  have hn : F32.rnEven ((3557500:ℚ) / 65535 / (2:ℚ) ^ ((5:ℤ) - 23)) = 14230217 := by
    apply F32.rnEven_eq_lo <;> norm_num
  have h := F32.roundF32_eq_pos ((3557500:ℚ) / 65535) 5 14230217 (by norm_num) (by norm_num)
    (by norm_num) (by norm_num) hn (by norm_num)
  rw [h]
  norm_num

theorem roundF32_hum_sub : F32.roundF32 ((14230217:ℚ)/262144 - 6) = .fin ((12657353:ℚ)/262144) := by
  have hn : F32.rnEven (((14230217:ℚ)/262144 - 6) / (2:ℚ) ^ ((5:ℤ) - 23)) = 12657353 := by
    apply F32.rnEven_eq_lo <;> norm_num
  have h := F32.roundF32_eq_pos ((14230217:ℚ)/262144 - 6) 5 12657353 (by norm_num) (by norm_num)
    (by norm_num) (by norm_num) hn (by norm_num)
  rw [h]
  norm_num

theorem roundF32_hum_enc : F32.roundF32 ((12657353:ℚ)/262144 * 100) = .fin ((9888557:ℚ)/2048) := by
  have hn : F32.rnEven (((12657353:ℚ)/262144 * 100) / (2:ℚ) ^ ((12:ℤ) - 23)) = 9888557 := by
    apply F32.rnEven_eq_lo <;> norm_num
  have h := F32.roundF32_eq_pos ((12657353:ℚ)/262144 * 100) 12 9888557 (by norm_num) (by norm_num)
    (by norm_num) (by norm_num) hn (by norm_num)
  rw [h]
  norm_num

theorem decodeRelativeHumidity_bytes :
    decodeRelativeHumidity 0x6F 0x2C = .fin ((12657353:ℚ)/262144) := by
  unfold decodeRelativeHumidity
  rw [show (((0x6F * 256 + 0x2C : ℕ) : ℚ)) = (28460:ℚ) from by norm_num]
  rw [F32.mul_fin, roundF32_hum_mul]
  rw [F32.div_fin _ _ (by norm_num), roundF32_hum_div]
  rw [F32.sub_fin, roundF32_hum_sub]
  simp only [F32.clamp]
  rw [if_neg (by norm_num), if_neg (by norm_num)]

theorem humWire_bytes :
    HumidityMeasurementCluster.measuredWire (decodeRelativeHumidity 0x6F 0x2C) = 4828 := by
  rw [decodeRelativeHumidity_bytes]
  unfold HumidityMeasurementCluster.measuredWire
  rw [F32.mul_fin, roundF32_hum_enc]
  simp only [F32.clamp]
  rw [if_neg (by norm_num), if_neg (by norm_num)]
  have h := toU16_fin_eval ((9888557:ℚ)/2048) 4828 (by norm_num) (by norm_num)
    (by norm_num) (by norm_num)
  rw [h]
  rfl

theorem roundF32_cex_hum : F32.roundF32 ((1:ℚ)/128 * 100) = .fin ((25:ℚ)/32) := by
  have hn : F32.rnEven ((1:ℚ)/128 * 100 / (2:ℚ) ^ ((-1:ℤ) - 23)) = 13107200 := by
    apply F32.rnEven_eq_lo <;> norm_num
  have h := F32.roundF32_eq_pos ((1:ℚ)/128 * 100) (-1) 13107200 (by norm_num) (by norm_num)
    (by norm_num) (by norm_num) hn (by norm_num)
  rw [h]
  norm_num

theorem roundF32_hum_103 : F32.roundF32 ((103:ℚ) * 100) = .fin 10300 := by
  have hn : F32.rnEven ((103:ℚ) * 100 / (2:ℚ) ^ ((13:ℤ) - 23)) = 10547200 := by
    apply F32.rnEven_eq_lo <;> norm_num
  have h := F32.roundF32_eq_pos ((103:ℚ) * 100) 13 10547200 (by norm_num) (by norm_num)
    (by norm_num) (by norm_num) hn (by norm_num)
  rw [h]
  norm_num

theorem roundF32_temp_400 : F32.roundF32 ((400:ℚ) * 100) = .fin 40000 := by
  have hn : F32.rnEven ((400:ℚ) * 100 / (2:ℚ) ^ ((15:ℤ) - 23)) = 10240000 := by
    apply F32.rnEven_eq_lo <;> norm_num
  have h := F32.roundF32_eq_pos ((400:ℚ) * 100) 15 10240000 (by norm_num) (by norm_num)
    (by norm_num) (by norm_num) hn (by norm_num)
  rw [h]
  norm_num

theorem roundF32_temp_neg10 : F32.roundF32 ((-10:ℚ) * 100) = .fin (-1000) := by
  have hn : F32.rnEven (-((-10:ℚ) * 100) / (2:ℚ) ^ ((9:ℤ) - 23)) = 16384000 := by
    apply F32.rnEven_eq_lo <;> norm_num
  have h := F32.roundF32_eq_neg ((-10:ℚ) * 100) 9 16384000 (by norm_num) (by norm_num)
    (by norm_num) (by norm_num) hn (by norm_num)
  rw [h]
  norm_num

/-!
## State-transition lemmas for the two clusters
-/

theorem optF32Ne_nan (x : Option F32) : optF32Ne x (some .nan) = true := by
  rcases x with _ | y
  · rfl
  · cases y <;> rfl

namespace TemperatureMeasurementCluster

theorem temp_set_ver (c : TemperatureMeasurementCluster) (v : Option F32) :
    (c.set v).data_ver.ver =
      c.data_ver.ver + (if optF32Ne c.temperature v then 1 else 0) := by
  unfold set
  by_cases h : optF32Ne c.temperature v <;> simp [h, Dataver.changed]

theorem temp_set_dirty (c : TemperatureMeasurementCluster) (v : Option F32) :
    (c.set v).data_ver.dirty = (optF32Ne c.temperature v || c.data_ver.dirty) := by
  unfold set
  by_cases h : optF32Ne c.temperature v <;> simp [h, Dataver.changed]

theorem temp_set_of_eq (c : TemperatureMeasurementCluster) (v : Option F32)
    (h : optF32Ne c.temperature v = false) : c.set v = c := by
  unfold set
  rw [h]
  rfl

theorem temp_applySets_ver (c : TemperatureMeasurementCluster) (vs : List (Option F32)) :
    (c.applySets vs).data_ver.ver = c.data_ver.ver + c.countChanges vs := by
  induction vs generalizing c with
  | nil => rfl
  | cons v vs ih =>
      show ((c.set v).applySets vs).data_ver.ver =
        c.data_ver.ver + ((if optF32Ne c.temperature v then 1 else 0) +
          (c.set v).countChanges vs)
      rw [ih, temp_set_ver]
      omega

theorem temp_applySets_dirty (c : TemperatureMeasurementCluster) (vs : List (Option F32)) :
    (c.applySets vs).data_ver.dirty =
      (c.data_ver.dirty || decide (0 < c.countChanges vs)) := by
  induction vs generalizing c with
  | nil => simp [applySets, countChanges]
  | cons v vs ih =>
      show ((c.set v).applySets vs).data_ver.dirty =
        (c.data_ver.dirty ||
          decide (0 < ((if optF32Ne c.temperature v then 1 else 0) +
            (c.set v).countChanges vs)))
      rw [ih, temp_set_dirty]
      by_cases h : optF32Ne c.temperature v <;> simp [h]

theorem temp_consume_change_fst (c : TemperatureMeasurementCluster) :
    c.consume_change.1 = (if c.data_ver.dirty then some () else none) := by
  unfold consume_change Dataver.consume_change
  by_cases h : c.data_ver.dirty <;> simp [h]

theorem temp_consume_change_dirty (c : TemperatureMeasurementCluster) :
    c.consume_change.2.data_ver.dirty = false := by
  unfold consume_change Dataver.consume_change
  by_cases h : c.data_ver.dirty <;> simp [h]

end TemperatureMeasurementCluster

namespace HumidityMeasurementCluster

theorem hum_set_ver (c : HumidityMeasurementCluster) (v : Option F32) :
    (c.set v).data_ver.ver =
      c.data_ver.ver + (if optF32Ne c.humidity_prh v then 1 else 0) := by
  unfold set
  by_cases h : optF32Ne c.humidity_prh v <;> simp [h, Dataver.changed]

theorem hum_set_dirty (c : HumidityMeasurementCluster) (v : Option F32) :
    (c.set v).data_ver.dirty = (optF32Ne c.humidity_prh v || c.data_ver.dirty) := by
  unfold set
  by_cases h : optF32Ne c.humidity_prh v <;> simp [h, Dataver.changed]

theorem hum_set_of_eq (c : HumidityMeasurementCluster) (v : Option F32)
    (h : optF32Ne c.humidity_prh v = false) : c.set v = c := by
  unfold set
  rw [h]
  rfl

theorem hum_applySets_ver (c : HumidityMeasurementCluster) (vs : List (Option F32)) :
    (c.applySets vs).data_ver.ver = c.data_ver.ver + c.countChanges vs := by
  induction vs generalizing c with
  | nil => rfl
  | cons v vs ih =>
      show ((c.set v).applySets vs).data_ver.ver =
        c.data_ver.ver + ((if optF32Ne c.humidity_prh v then 1 else 0) +
          (c.set v).countChanges vs)
      rw [ih, hum_set_ver]
      omega

theorem hum_applySets_dirty (c : HumidityMeasurementCluster) (vs : List (Option F32)) :
    (c.applySets vs).data_ver.dirty =
      (c.data_ver.dirty || decide (0 < c.countChanges vs)) := by
  induction vs generalizing c with
  | nil => simp [applySets, countChanges]
  | cons v vs ih =>
      show ((c.set v).applySets vs).data_ver.dirty =
        (c.data_ver.dirty ||
          decide (0 < ((if optF32Ne c.humidity_prh v then 1 else 0) +
            (c.set v).countChanges vs)))
      rw [ih, hum_set_dirty]
      by_cases h : optF32Ne c.humidity_prh v <;> simp [h]

theorem hum_consume_change_fst (c : HumidityMeasurementCluster) :
    c.consume_change.1 = (if c.data_ver.dirty then some () else none) := by
  unfold consume_change Dataver.consume_change
  by_cases h : c.data_ver.dirty <;> simp [h]

theorem hum_consume_change_dirty (c : HumidityMeasurementCluster) :
    c.consume_change.2.data_ver.dirty = false := by
  unfold consume_change Dataver.consume_change
  by_cases h : c.data_ver.dirty <;> simp [h]

end HumidityMeasurementCluster

/-!
## Cast lemmas and read-handler lemmas
-/

theorem F32.toI16_fin_ge (q : ℚ) (h : (32767:ℚ) ≤ q) : F32.toI16 (.fin q) = 32767 := by
  have h0 : (0:ℚ) ≤ q := le_trans (by norm_num) h
  have hrfl : F32.toI16 (.fin q) = max (-32768) (min 32767 (F32.truncQ q)) := rfl
  have ht : F32.truncQ q = ⌊q⌋ := by unfold F32.truncQ; rw [if_pos h0]
  have hge : (32767:ℤ) ≤ ⌊q⌋ := Int.le_floor.mpr (by exact_mod_cast h)
  rw [hrfl, ht, min_eq_left hge, max_eq_right (by norm_num)]

theorem F32.toI16_fin_le (q : ℚ) (h : q ≤ -32768) : F32.toI16 (.fin q) = -32768 := by
  have h0 : ¬ (0:ℚ) ≤ q := by
    intro hc
    linarith
  have hrfl : F32.toI16 (.fin q) = max (-32768) (min 32767 (F32.truncQ q)) := rfl
  have ht : F32.truncQ q = -⌊-q⌋ := by unfold F32.truncQ; rw [if_neg h0]
  have hge : (32768:ℤ) ≤ ⌊-q⌋ := Int.le_floor.mpr (by push_cast; linarith)
  rw [hrfl, ht, min_eq_right (by omega), max_eq_left (by omega)]

theorem F32.toI16_bounds (w : F32) :
    -32768 ≤ F32.toI16 w ∧ F32.toI16 w ≤ 32767 := by
  cases w with
  | nan => exact ⟨show (-32768:ℤ) ≤ 0 by norm_num, show (0:ℤ) ≤ 32767 by norm_num⟩
  | inf s =>
      cases s
      · exact ⟨show (-32768:ℤ) ≤ 32767 by norm_num, le_refl _⟩
      · exact ⟨le_refl _, show (-32768:ℤ) ≤ 32767 by norm_num⟩
  | fin q =>
      have hrfl : F32.toI16 (.fin q) = max (-32768) (min 32767 (F32.truncQ q)) := rfl
      rw [hrfl]
      exact ⟨le_max_left _ _, max_le (by norm_num) (min_le_left _ _)⟩

/-- The humidity wire value never exceeds 10000 (and so never overflows `u16`):
the clamp pins every finite or infinite input into `[0, 10000]` and NaN casts
to 0. -/
theorem HumidityMeasurementCluster.measuredWire_le (v : F32) :
    HumidityMeasurementCluster.measuredWire v ≤ 10000 := by
  unfold HumidityMeasurementCluster.measuredWire
  rcases hm : v.mul (.fin 100) with _ | s | q
  · show (0:ℕ) ≤ 10000
    norm_num
  · cases s
    · show F32.toU16 (.fin 10000) ≤ 10000
      rw [toU16_fin_eval 10000 10000 (by norm_num) (by norm_num) (by norm_num) (by norm_num)]
      norm_num
    · show F32.toU16 (.fin 0) ≤ 10000
      rw [toU16_fin_eval 0 0 (by norm_num) (by norm_num) (by norm_num) (by norm_num)]
      norm_num
  · show F32.toU16 (if q < 0 then .fin 0 else if 10000 < q then .fin 10000 else .fin q) ≤ 10000
    by_cases h1 : q < 0
    · rw [if_pos h1]
      rw [toU16_fin_eval 0 0 (by norm_num) (by norm_num) (by norm_num) (by norm_num)]
      norm_num
    · rw [if_neg h1]
      by_cases h2 : (10000:ℚ) < q
      · rw [if_pos h2]
        rw [toU16_fin_eval 10000 10000 (by norm_num) (by norm_num) (by norm_num) (by norm_num)]
        norm_num
      · rw [if_neg h2]
        have h0 : (0:ℚ) ≤ q := not_lt.mp h1
        have hq10 : q ≤ (10000:ℚ) := not_lt.mp h2
        have ht : F32.truncQ q = ⌊q⌋ := by unfold F32.truncQ; rw [if_pos h0]
        have hfl : ⌊q⌋ ≤ 10000 := by
          have := Int.floor_le_floor hq10
          simpa using this
        have hfl0 : 0 ≤ ⌊q⌋ := Int.floor_nonneg.mpr h0
        show (min 65535 (F32.truncQ q)).toNat ≤ 10000
        rw [ht, min_eq_right (by omega)]
        omega

theorem TemperatureMeasurementCluster.temp_read_state (c : TemperatureMeasurementCluster)
    (attr : AttrDetails) (wd : Except MatterError Bool) : (c.read attr wd).2 = c := by
  unfold read
  rcases wd with e | b
  · rfl
  · cases b
    · rfl
    · dsimp only
      by_cases hs : attr.system
      · rw [if_pos hs]
      · rw [if_neg hs]
        cases hfr : attributesFromRepr attr.attr_id with
        | none => rfl
        | some a => cases a <;> rfl

theorem HumidityMeasurementCluster.hum_read_state (c : HumidityMeasurementCluster)
    (attr : AttrDetails) (wd : Except MatterError Bool) : (c.read attr wd).2 = c := by
  unfold read
  rcases wd with e | b
  · rfl
  · cases b
    · rfl
    · dsimp only
      by_cases hs : attr.system
      · rw [if_pos hs]
      · rw [if_neg hs]
        cases hfr : attributesFromRepr attr.attr_id with
        | none => rfl
        | some a => cases a <;> rfl

theorem attributesFromRepr_eq_none (id : ℕ) (h0 : id ≠ 0) (h1 : id ≠ 1) (h2 : id ≠ 2) :
    attributesFromRepr id = none := by
  unfold attributesFromRepr
  rw [if_neg h0, if_neg h1, if_neg h2]

theorem TemperatureMeasurementCluster.temp_read_not_found (c : TemperatureMeasurementCluster)
    (id : ℕ) (h0 : id ≠ 0) (h1 : id ≠ 1) (h2 : id ≠ 2) :
    (c.read ⟨id, false⟩ (.ok true)).1 = .error .attributeNotFound := by
  unfold read
  dsimp only
  rw [if_neg (by simp : ¬ (AttrDetails.mk id false).system = true)]
  rw [attributesFromRepr_eq_none id h0 h1 h2]

theorem HumidityMeasurementCluster.hum_read_not_found (c : HumidityMeasurementCluster)
    (id : ℕ) (h0 : id ≠ 0) (h1 : id ≠ 1) (h2 : id ≠ 2) :
    (c.read ⟨id, false⟩ (.ok true)).1 = .error .attributeNotFound := by
  unfold read
  dsimp only
  rw [if_neg (by simp : ¬ (AttrDetails.mk id false).system = true)]
  rw [attributesFromRepr_eq_none id h0 h1 h2]

/-!
## Claim theorems
-/

/-- C1: for every sequence of `set` calls on a measurement cluster's cell, the
reported version after the sequence equals the initial version plus the number
of calls whose argument differed (under the code's exact `Option<f32>`
equality) from the value stored immediately before them; a `set` whose
argument equals the current stored value (including both absent) changes
neither the stored value nor the version nor the dirty flag. -/
theorem c1_version_counts_distinct_sets :
    (∀ (c : TemperatureMeasurementCluster) (vs : List (Option F32)),
        (c.applySets vs).data_ver.ver = c.data_ver.ver + c.countChanges vs) ∧
    (∀ (c : TemperatureMeasurementCluster) (v : Option F32),
        optF32Ne c.temperature v = false → c.set v = c) ∧
    (∀ (c : HumidityMeasurementCluster) (vs : List (Option F32)),
        (c.applySets vs).data_ver.ver = c.data_ver.ver + c.countChanges vs) ∧
    (∀ (c : HumidityMeasurementCluster) (v : Option F32),
        optF32Ne c.humidity_prh v = false → c.set v = c) :=
  ⟨TemperatureMeasurementCluster.temp_applySets_ver,
   TemperatureMeasurementCluster.temp_set_of_eq,
   HumidityMeasurementCluster.hum_applySets_ver,
   HumidityMeasurementCluster.hum_set_of_eq⟩

/-- C1 witness: a concrete three-`set` sequence with two real changes bumps
the version from 5 to 7, and a no-op `set` (absent over absent) is the
identity. -/
theorem c1_version_counts_distinct_sets_witness :
    ((⟨⟨5, false⟩, none⟩ : TemperatureMeasurementCluster).applySets
        [some (.fin 1), none]).data_ver.ver = 7 ∧
    (⟨⟨5, false⟩, none⟩ : TemperatureMeasurementCluster).set none =
      (⟨⟨5, false⟩, none⟩ : TemperatureMeasurementCluster) := by
  constructor
  · rw [c1_version_counts_distinct_sets.1]
    rfl
  · exact c1_version_counts_distinct_sets.2.1 ⟨⟨5, false⟩, none⟩ none rfl

/-- C2 counterexample: the claim's formula `clamp(round(v * 100), 0, 10000)`
rounds to nearest, but the code truncates (`as u16` after `clamp`); at the
exactly representable value `v = 1/128` (0.0078125 %RH) the code encodes 0
while the claimed formula gives 1. -/
theorem c2_humidity_rounding_counterexample :
    ((⟨⟨0, false⟩, some (.fin (1/128))⟩ : HumidityMeasurementCluster).read
        ⟨0, false⟩ (.ok true)).1 = .ok (some (.measuredU16 (some 0))) ∧
    specHumidityMeasuredValue (1/128) = 1 ∧ (0 : ℕ) ≠ 1 := by
  refine ⟨?_, ?_, by norm_num⟩
  · have hw : HumidityMeasurementCluster.measuredWire (.fin (1/128)) = 0 := by
      unfold HumidityMeasurementCluster.measuredWire
      rw [F32.mul_fin, roundF32_cex_hum]
      simp only [F32.clamp]
      rw [if_neg (by norm_num), if_neg (by norm_num)]
      rw [toU16_fin_eval ((25:ℚ)/32) 0 (by norm_num) (by norm_num) (by norm_num)
        (by norm_num)]
      rfl
    show Except.ok (some (HumWrite.measuredU16
        (some (HumidityMeasurementCluster.measuredWire (.fin (1/128)))))) = _
    rw [hw]
  · unfold specHumidityMeasuredValue
    rw [F32.roundAway_eq_pos ((1:ℚ)/128 * 100) 1 (by norm_num) (by norm_num)
      (by norm_num)]
    rw [min_eq_right (by norm_num : (1:ℤ) ≤ 10000),
      max_eq_right (by norm_num : (0:ℤ) ≤ 1)]

/-- C2 (amended): for every present humidity cell value `v`, reading
MeasuredValue encodes the `u16` truncation of `clamp(v * 100, 0, 10000)`
(`f32` arithmetic, truncation toward zero rather than round-to-nearest); the
out-of-range input 103.0 %RH encodes to exactly 10000, and the encoded value
never exceeds 10000, so it never overflows the unsigned 16-bit range. -/
theorem c2_humidity_encode_truncates_clamped :
    ∀ (c : HumidityMeasurementCluster) (v : F32),
      c.humidity_prh = some v →
      ((c.read ⟨0, false⟩ (.ok true)).1 =
          .ok (some (.measuredU16 (some (HumidityMeasurementCluster.measuredWire v)))) ∧
       HumidityMeasurementCluster.measuredWire v ≤ 10000 ∧
       HumidityMeasurementCluster.measuredWire (.fin 103) = 10000) := by
  intro c v h
  refine ⟨?_, HumidityMeasurementCluster.measuredWire_le v, ?_⟩
  · have hr : (c.read ⟨0, false⟩ (.ok true)).1 =
        .ok (some (.measuredU16
          (c.humidity_prh.map HumidityMeasurementCluster.measuredWire))) := rfl
    rw [hr, h]
    rfl
  · unfold HumidityMeasurementCluster.measuredWire
    rw [F32.mul_fin, roundF32_hum_103]
    simp only [F32.clamp]
    rw [if_neg (by norm_num), if_pos (by norm_num)]
    rw [toU16_fin_eval 10000 10000 (by norm_num) (by norm_num) (by norm_num)
      (by norm_num)]
    rfl

/-- C2 witness: the amended claim instantiated at a concrete cluster holding
50 %RH. -/
theorem c2_humidity_encode_truncates_clamped_witness :
    ((⟨⟨0, false⟩, some (.fin 50)⟩ : HumidityMeasurementCluster).read
        ⟨0, false⟩ (.ok true)).1 =
      .ok (some (.measuredU16 (some (HumidityMeasurementCluster.measuredWire (.fin 50))))) ∧
    HumidityMeasurementCluster.measuredWire (.fin 50) ≤ 10000 ∧
    HumidityMeasurementCluster.measuredWire (.fin 103) = 10000 :=
  c2_humidity_encode_truncates_clamped ⟨⟨0, false⟩, some (.fin 50)⟩ (.fin 50) rfl

/-- C3 counterexample: the claim says MeasuredValue encodes `round(v * 100)`
"with no clamping", but at `v = 400` (whose spec-formula wire value 40000
exceeds `i16::MAX`) the code's saturating `as i16` cast encodes 32767, not
40000. -/
theorem c3_no_clamp_counterexample :
    ((⟨⟨0, false⟩, some (.fin 400)⟩ : TemperatureMeasurementCluster).read
        ⟨0, false⟩ (.ok true)).1 = .ok (some (.measuredI16 (some 32767))) ∧
    specTemperatureMeasuredValue 400 = 40000 ∧ (32767 : ℤ) ≠ 40000 := by
  refine ⟨?_, ?_, by norm_num⟩
  · have hw : TemperatureMeasurementCluster.measuredWire (.fin 400) = 32767 := by
      unfold TemperatureMeasurementCluster.measuredWire
      rw [F32.mul_fin, roundF32_temp_400, F32.round_fin]
      rw [F32.roundAway_eq_pos 40000 40000 (by norm_num) (by norm_num) (by norm_num)]
      exact F32.toI16_fin_ge _ (by norm_num)
    show Except.ok (some (TempWrite.measuredI16
        (some (TemperatureMeasurementCluster.measuredWire (.fin 400))))) = _
    rw [hw]
  · unfold specTemperatureMeasuredValue
    rw [F32.roundAway_eq_pos ((400:ℚ) * 100) 40000 (by norm_num) (by norm_num)
      (by norm_num)]

/-- C3 (amended): reading MeasuredValue encodes the `f32` computation
`(v * 100.0).round()` cast to `i16` with saturation: whenever the rounded
value lies within `[-32768, 32767]` the encoded integer is exactly that value
(negative values allowed, untouched by the cast); out-of-range values
saturate; when the cell is absent the encoding is the null representation,
never a default numeric value such as 0. -/
theorem c3_temperature_measured_value :
    ∀ c : TemperatureMeasurementCluster,
      (c.temperature = none →
        (c.read ⟨0, false⟩ (.ok true)).1 = .ok (some (.measuredI16 none))) ∧
      (∀ v : F32, c.temperature = some v →
        (c.read ⟨0, false⟩ (.ok true)).1 =
          .ok (some (.measuredI16 (some (TemperatureMeasurementCluster.measuredWire v))))) ∧
      (∀ (v : F32) (k : ℤ), c.temperature = some v →
        (v.mul (.fin 100)).round = .fin ((k : ℤ) : ℚ) →
        -32768 ≤ k → k ≤ 32767 →
        TemperatureMeasurementCluster.measuredWire v = k) := by
  intro c
  have hr : (c.read ⟨0, false⟩ (.ok true)).1 =
      .ok (some (.measuredI16
        (c.temperature.map TemperatureMeasurementCluster.measuredWire))) := rfl
  refine ⟨?_, ?_, ?_⟩
  · intro h
    rw [hr, h]
    rfl
  · intro v h
    rw [hr, h]
    rfl
  · intro v k _ hround h1 h2
    unfold TemperatureMeasurementCluster.measuredWire
    rw [hround]
    exact F32.toI16_fin_range k h1 h2

/-- C3 witness: a negative reading of −10 °C encodes to −1000 (no clamp in
range), and an absent cell encodes null. -/
theorem c3_temperature_measured_value_witness :
    TemperatureMeasurementCluster.measuredWire (.fin (-10)) = -1000 ∧
    ((⟨⟨0, false⟩, none⟩ : TemperatureMeasurementCluster).read
        ⟨0, false⟩ (.ok true)).1 = .ok (some (.measuredI16 none)) := by
  constructor
  · have hround : ((F32.fin (-10)).mul (.fin 100)).round = .fin (((-1000 : ℤ)) : ℚ) := by
      rw [F32.mul_fin, roundF32_temp_neg10, F32.round_fin]
      rw [F32.roundAway_eq_neg (-1000) 1000 (by norm_num) (by norm_num) (by norm_num)]
    exact (c3_temperature_measured_value ⟨⟨0, false⟩, some (.fin (-10))⟩).2.2
      (.fin (-10)) (-1000) rfl hround (by norm_num) (by norm_num)
  · exact (c3_temperature_measured_value ⟨⟨0, false⟩, none⟩).1 rfl

/-- C4: `consume_change` is edge-triggered with exactly-once delivery: after a
`set` that produced a real change, the first `consume_change` returns `some`;
after that drain, as long as further `set` calls produce no real change,
`consume_change` returns `none`; and if any later `set` produces a real
change, the next `consume_change` returns `some` again (no change is
double-reported or silently dropped). -/
theorem c4_consume_change_edge_triggered :
    (∀ (c : TemperatureMeasurementCluster) (v : Option F32) (ws : List (Option F32)),
      optF32Ne c.temperature v = true →
        ((c.set v).consume_change.1 = some () ∧
         ((c.set v).consume_change.2.countChanges ws = 0 →
            ((c.set v).consume_change.2.applySets ws).consume_change.1 = none) ∧
         (0 < (c.set v).consume_change.2.countChanges ws →
            ((c.set v).consume_change.2.applySets ws).consume_change.1 = some ()))) ∧
    (∀ (c : HumidityMeasurementCluster) (v : Option F32) (ws : List (Option F32)),
      optF32Ne c.humidity_prh v = true →
        ((c.set v).consume_change.1 = some () ∧
         ((c.set v).consume_change.2.countChanges ws = 0 →
            ((c.set v).consume_change.2.applySets ws).consume_change.1 = none) ∧
         (0 < (c.set v).consume_change.2.countChanges ws →
            ((c.set v).consume_change.2.applySets ws).consume_change.1 = some ()))) := by
  constructor
  · intro c v ws h
    have hd : (c.set v).data_ver.dirty = true := by
      rw [TemperatureMeasurementCluster.temp_set_dirty, h]
      rfl
    refine ⟨?_, ?_, ?_⟩
    · rw [TemperatureMeasurementCluster.temp_consume_change_fst, hd]
      rfl
    · intro hz
      rw [TemperatureMeasurementCluster.temp_consume_change_fst,
        TemperatureMeasurementCluster.temp_applySets_dirty,
        TemperatureMeasurementCluster.temp_consume_change_dirty, hz]
      rfl
    · intro hp
      rw [TemperatureMeasurementCluster.temp_consume_change_fst,
        TemperatureMeasurementCluster.temp_applySets_dirty,
        TemperatureMeasurementCluster.temp_consume_change_dirty]
      simp [hp]
  · intro c v ws h
    have hd : (c.set v).data_ver.dirty = true := by
      rw [HumidityMeasurementCluster.hum_set_dirty, h]
      rfl
    refine ⟨?_, ?_, ?_⟩
    · rw [HumidityMeasurementCluster.hum_consume_change_fst, hd]
      rfl
    · intro hz
      rw [HumidityMeasurementCluster.hum_consume_change_fst,
        HumidityMeasurementCluster.hum_applySets_dirty,
        HumidityMeasurementCluster.hum_consume_change_dirty, hz]
      rfl
    · intro hp
      rw [HumidityMeasurementCluster.hum_consume_change_fst,
        HumidityMeasurementCluster.hum_applySets_dirty,
        HumidityMeasurementCluster.hum_consume_change_dirty]
      simp [hp]

/-- C4 witness: a concrete absent-to-present `set` arms the signal, the first
drain returns `some`, and with no further change the next drain returns
`none`. -/
theorem c4_consume_change_edge_triggered_witness :
    ((⟨⟨0, false⟩, none⟩ : TemperatureMeasurementCluster).set
        (some (.fin 1))).consume_change.1 = some () ∧
    ((((⟨⟨0, false⟩, none⟩ : TemperatureMeasurementCluster).set
        (some (.fin 1))).consume_change.2.applySets []).consume_change.1 = none) := by
  have h := c4_consume_change_edge_triggered.1 ⟨⟨0, false⟩, none⟩ (some (.fin 1)) [] rfl
  exact ⟨h.1, h.2.1 rfl⟩

/-- C5 counterexample: decoding the raw bytes `[0x66, 0x22, 0x00, 0x6F, 0x2C,
0x00]` with the program's formulas yields 406625/16384 ≈ 24.818 °C and
12657353/262144 ≈ 48.284 %RH, which are NOT within 0.01 of the claimed
24.97 °C and 39.35 %RH, and the re-encoded wire integers are not 2497 and
3935. -/
theorem c5_round_trip_counterexample :
    decodeTemperature 0x66 0x22 = .fin ((406625:ℚ)/16384) ∧
    (1:ℚ)/100 < |(406625:ℚ)/16384 - 2497/100| ∧
    decodeRelativeHumidity 0x6F 0x2C = .fin ((12657353:ℚ)/262144) ∧
    (1:ℚ)/100 < |(12657353:ℚ)/262144 - 3935/100| ∧
    TemperatureMeasurementCluster.measuredWire (decodeTemperature 0x66 0x22) ≠ 2497 ∧
    HumidityMeasurementCluster.measuredWire (decodeRelativeHumidity 0x6F 0x2C) ≠ 3935 := by
  refine ⟨decodeTemperature_bytes, ?_, decodeRelativeHumidity_bytes, ?_, ?_, ?_⟩
  · rw [abs_of_neg (by norm_num : (406625:ℚ)/16384 - 2497/100 < 0)]
    norm_num
  · rw [abs_of_pos (by norm_num : (0:ℚ) < (12657353:ℚ)/262144 - 3935/100)]
    norm_num
  · rw [tempWire_bytes]
    norm_num
  · rw [humWire_bytes]
    norm_num

/-- C5 (amended): decoding the raw bytes `[0x66, 0x22, 0x00, 0x6F, 0x2C,
0x00]` with the program's formulas yields ≈ 24.82 °C and ≈ 48.28 %RH (within
tolerance 0.01), and re-encoding those values through the clusters'
MeasuredValue encoders yields the wire integers 2482 and 4828. -/
theorem c5_round_trip :
    decodeTemperature 0x66 0x22 = .fin ((406625:ℚ)/16384) ∧
    |(406625:ℚ)/16384 - 2482/100| ≤ 1/100 ∧
    decodeRelativeHumidity 0x6F 0x2C = .fin ((12657353:ℚ)/262144) ∧
    |(12657353:ℚ)/262144 - 4828/100| ≤ 1/100 ∧
    TemperatureMeasurementCluster.measuredWire (decodeTemperature 0x66 0x22) = 2482 ∧
    HumidityMeasurementCluster.measuredWire (decodeRelativeHumidity 0x6F 0x2C) = 4828 := by
  refine ⟨decodeTemperature_bytes, ?_, decodeRelativeHumidity_bytes, ?_,
    tempWire_bytes, humWire_bytes⟩
  · rw [abs_of_neg (by norm_num : (406625:ℚ)/16384 - 2482/100 < 0)]
    norm_num
  · rw [abs_of_pos (by norm_num : (0:ℚ) < (12657353:ℚ)/262144 - 4828/100)]
    norm_num

/-- C6: for every non-system read request whose numeric attribute id is
outside the descriptor's declared user set {0, 1, 2}, the read handler
returns the "unsupported attribute" error, and the set of ids
`Attributes::from_repr` decodes is exactly that declared set (the descriptor
list being the two global system attributes followed by these three). -/
theorem c6_unsupported_attribute_ids :
    (∀ id : ℕ, (attributesFromRepr id).isSome = true ↔ id ∈ declaredUserAttributeIds) ∧
    CLUSTER_attribute_ids = [FEATURE_MAP_ID, ATTRIBUTE_LIST_ID] ++ declaredUserAttributeIds ∧
    (∀ (c : TemperatureMeasurementCluster) (id : ℕ), id ∉ declaredUserAttributeIds →
       (c.read ⟨id, false⟩ (.ok true)).1 = .error .attributeNotFound) ∧
    (∀ (c : HumidityMeasurementCluster) (id : ℕ), id ∉ declaredUserAttributeIds →
       (c.read ⟨id, false⟩ (.ok true)).1 = .error .attributeNotFound) := by
  refine ⟨?_, rfl, ?_, ?_⟩
  · intro id
    unfold attributesFromRepr declaredUserAttributeIds
    by_cases h0 : id = 0
    · simp [h0]
    · by_cases h1 : id = 1
      · simp [h0, h1]
      · by_cases h2 : id = 2
        · simp [h0, h1, h2]
        · simp [h0, h1, h2]
  · intro c id h
    simp only [declaredUserAttributeIds, List.mem_cons, List.mem_singleton] at h
    push_neg at h
    exact TemperatureMeasurementCluster.temp_read_not_found c id h.1 h.2.1 h.2.2.1
  · intro c id h
    simp only [declaredUserAttributeIds, List.mem_cons, List.mem_singleton] at h
    push_neg at h
    exact HumidityMeasurementCluster.hum_read_not_found c id h.1 h.2.1 h.2.2.1

/-- C6 witness: id 5 is rejected with the unsupported-attribute error, and
id 0 decodes. -/
theorem c6_unsupported_attribute_ids_witness :
    ((⟨⟨0, false⟩, none⟩ : TemperatureMeasurementCluster).read
        ⟨5, false⟩ (.ok true)).1 = .error .attributeNotFound ∧
    ((attributesFromRepr 0).isSome = true ↔ 0 ∈ declaredUserAttributeIds) := by
  exact ⟨c6_unsupported_attribute_ids.2.2.1 ⟨⟨0, false⟩, none⟩ 5 (by decide),
    c6_unsupported_attribute_ids.1 0⟩

/-- C7: for every sequence of prior `set` calls and for both cluster types,
reading MinMeasuredValue (id 1) or MaxMeasuredValue (id 2) always encodes the
null representation, unconditionally. -/
theorem c7_min_max_always_null :
    ∀ (c : TemperatureMeasurementCluster) (vs : List (Option F32))
      (h : HumidityMeasurementCluster) (ws : List (Option F32)),
      ((c.applySets vs).read ⟨1, false⟩ (.ok true)).1 = .ok (some (.measuredI16 none)) ∧
      ((c.applySets vs).read ⟨2, false⟩ (.ok true)).1 = .ok (some (.measuredI16 none)) ∧
      ((h.applySets ws).read ⟨1, false⟩ (.ok true)).1 = .ok (some (.measuredU16 none)) ∧
      ((h.applySets ws).read ⟨2, false⟩ (.ok true)).1 = .ok (some (.measuredU16 none)) :=
  fun _ _ _ _ => ⟨rfl, rfl, rfl, rfl⟩

/-- C8: the read handler is a read-only path: for every request (any attribute
id, system flag, or encoder outcome) it leaves the cluster state — the
measured-value cell and the version counter — unchanged, and when
`with_dataver` yields no writer it returns success having written nothing. -/
theorem c8_read_leaves_state_unchanged :
    ∀ (c : TemperatureMeasurementCluster) (h : HumidityMeasurementCluster)
      (attr : AttrDetails) (wd : Except MatterError Bool),
      (c.read attr wd).2 = c ∧ (c.read attr (.ok false)).1 = .ok none ∧
      (h.read attr wd).2 = h ∧ (h.read attr (.ok false)).1 = .ok none :=
  fun c h attr wd =>
    ⟨TemperatureMeasurementCluster.temp_read_state c attr wd, rfl,
     HumidityMeasurementCluster.hum_read_state h attr wd, rfl⟩

/-- C9: the `set` comparison is IEEE `f32` equality, under which NaN differs
from everything including itself: two consecutive `set(Some(NaN))` calls both
count as changes — the version rises by 2 and the dirty flag is armed by the
second call even after the first change was drained. -/
theorem c9_nan_set_always_changes :
    (∀ c : TemperatureMeasurementCluster,
       ((c.set (some .nan)).set (some .nan)).data_ver.ver = c.data_ver.ver + 2 ∧
       (c.set (some .nan)).data_ver.dirty = true ∧
       ((c.set (some .nan)).consume_change.2.set (some .nan)).data_ver.dirty = true) ∧
    (∀ c : HumidityMeasurementCluster,
       ((c.set (some .nan)).set (some .nan)).data_ver.ver = c.data_ver.ver + 2 ∧
       (c.set (some .nan)).data_ver.dirty = true ∧
       ((c.set (some .nan)).consume_change.2.set (some .nan)).data_ver.dirty = true) := by
  constructor
  · intro c
    refine ⟨?_, ?_, ?_⟩
    · rw [TemperatureMeasurementCluster.temp_set_ver, TemperatureMeasurementCluster.temp_set_ver,
        optF32Ne_nan, optF32Ne_nan]
      simp
    · rw [TemperatureMeasurementCluster.temp_set_dirty, optF32Ne_nan]
      rfl
    · rw [TemperatureMeasurementCluster.temp_set_dirty, optF32Ne_nan]
      rfl
  · intro c
    refine ⟨?_, ?_, ?_⟩
    · rw [HumidityMeasurementCluster.hum_set_ver, HumidityMeasurementCluster.hum_set_ver,
        optF32Ne_nan, optF32Ne_nan]
      simp
    · rw [HumidityMeasurementCluster.hum_set_dirty, optF32Ne_nan]
      rfl
    · rw [HumidityMeasurementCluster.hum_set_dirty, optF32Ne_nan]
      rfl

/-- C10: the temperature wire encoding saturates instead of wrapping: whenever
the `f32`-rounded value of `v * 100` exceeds 32767 (or is +∞) the `as i16`
cast yields 32767; below −32768 (or −∞) it yields −32768; NaN casts to 0; and
the encoded value always lies in `[-32768, 32767]`, never wrapping modulo
2^16. -/
theorem c10_temperature_cast_saturates :
    ∀ v : F32,
      (∀ q : ℚ, (v.mul (.fin 100)).round = .fin q → (32767:ℚ) < q →
          TemperatureMeasurementCluster.measuredWire v = 32767) ∧
      (∀ q : ℚ, (v.mul (.fin 100)).round = .fin q → q < -32768 →
          TemperatureMeasurementCluster.measuredWire v = -32768) ∧
      ((v.mul (.fin 100)).round = .inf false →
          TemperatureMeasurementCluster.measuredWire v = 32767) ∧
      ((v.mul (.fin 100)).round = .inf true →
          TemperatureMeasurementCluster.measuredWire v = -32768) ∧
      ((v.mul (.fin 100)).round = .nan →
          TemperatureMeasurementCluster.measuredWire v = 0) ∧
      (-32768 ≤ TemperatureMeasurementCluster.measuredWire v ∧
        TemperatureMeasurementCluster.measuredWire v ≤ 32767) := by
  intro v
  refine ⟨?_, ?_, ?_, ?_, ?_, ?_⟩
  · intro q hq hgt
    unfold TemperatureMeasurementCluster.measuredWire
    rw [hq]
    exact F32.toI16_fin_ge q hgt.le
  · intro q hq hlt
    unfold TemperatureMeasurementCluster.measuredWire
    rw [hq]
    exact F32.toI16_fin_le q hlt.le
  · intro hq
    unfold TemperatureMeasurementCluster.measuredWire
    rw [hq]
    rfl
  · intro hq
    unfold TemperatureMeasurementCluster.measuredWire
    rw [hq]
    rfl
  · intro hq
    unfold TemperatureMeasurementCluster.measuredWire
    rw [hq]
    rfl
  · unfold TemperatureMeasurementCluster.measuredWire
    exact F32.toI16_bounds _

/-- C10 witness: at `v = 400`, `(v * 100).round()` is 40000 > 32767 and the
encoded wire value saturates to 32767. -/
theorem c10_temperature_cast_saturates_witness :
    ((F32.fin 400).mul (.fin 100)).round = .fin 40000 ∧
    TemperatureMeasurementCluster.measuredWire (.fin 400) = 32767 := by
  have hq : ((F32.fin 400).mul (.fin 100)).round = .fin 40000 := by
    rw [F32.mul_fin, roundF32_temp_400, F32.round_fin]
    rw [F32.roundAway_eq_pos 40000 40000 (by norm_num) (by norm_num) (by norm_num)]
    norm_num
  exact ⟨hq, (c10_temperature_cast_saturates (.fin 400)).1 40000 hq (by norm_num)⟩
